import Mathlib

/-!
Shallow embedding of the entangler-core gateware (OxfordIonTrapGroup/entangler-core).

The registered (clocked) logic of `entangler/core.py` and `entangler/phy.py` is
translated into pure step functions on explicit state records.  Migen semantics:
within one clock, all synchronous statements of a module execute in list order
and the *last* assignment to a register wins; submodule (FSM) assignments come
after the parent module's own synchronous blocks.  Combinational signals become
plain functions of the current state and inputs.  Machine integers are `Nat`
with explicit `% 2^w` at every point where the hardware register width truncates.

Widths as instantiated by `EntanglerCore` / `Entangler`:
  * main state machine counter `m` and `m_end`: 10 bits (`time_cursor_width=10`),
  * sequencer `m_start`/`m_stop`: 11 bits (`counter_width=11`),
  * gater timestamps: `counter_width + n_fine = 11 + 3 = 14` bits,
  * gater `gate_start`/`gate_stop`: 14 bits,
  * `time_remaining`: 32 bits, `cycles_completed`/`triggers_received`: 14 bits,
  * event counters: 32 bits, rtlink input data: 14 bits.
-/

namespace Entangler

/-- 2^10, modulus of the main state machine's 10-bit counter `m`. -/
def mMod : Nat := 1024

/-- 2^32, modulus of `time_remaining` and of the 32-bit event counters. -/
def trMod : Nat := 4294967296

/-- 2^14, modulus of `cycles_completed`, `triggers_received`, timestamps and
the 14-bit rtlink input data path. -/
def ecMod : Nat := 16384

/-! ### ChannelSequencer (core.py lines 15-47) -/

/-- Configuration registers of one `ChannelSequencer` (11-bit each). -/
structure SeqCfg where
  m_start : Nat
  m_stop : Nat
  deriving DecidableEq, Repr

/-- One clock of `ChannelSequencer`: `If(stb_start, output.eq(1)).Else(If(stb_stop,
output.eq(0)))` followed by `If(clear, output.eq(0))`; the later `clear`
assignment wins (core.py lines 39-47). -/
def seqStep (c : SeqCfg) (m : Nat) (clear : Bool) (output : Bool) : Bool :=
  if clear then false
  else if m = c.m_start then true
  else if m = c.m_stop then false
  else output

/-- Trace of a `ChannelSequencer` driven by counter and clear streams,
starting from the reset value `output = 0`. -/
def seqTrace (c : SeqCfg) (ms : Nat → Nat) (cl : Nat → Bool) : Nat → Bool
  | 0 => false
  | t + 1 => seqStep c (ms t) (cl t) (seqTrace c ms cl t)

/-! ### InputGater (core.py lines 50-117) -/

/-- Configuration registers of one `InputGater` (14-bit offsets in mu). -/
structure GaterCfg where
  gate_start : Nat
  gate_stop : Nat
  deriving DecidableEq, Repr

/-- Registered state of one `InputGater`. -/
structure GaterState where
  got_ref : Bool
  triggered : Bool
  ref_ts : Nat
  sig_ts : Nat
  abs_gate_start : Nat
  abs_gate_stop : Nat
  deriving DecidableEq, Repr

/-- Per-clock inputs of one `InputGater` coming from the phys and the core. -/
structure GaterIn where
  refStb : Bool
  refFine : Nat
  sigStb : Bool
  sigFine : Nat
  clear : Bool
  deriving DecidableEq, Repr

/-- `Cat(phy.fine_ts, m)`: fine timestamp (3 bits) in the low bits, the 10-bit
counter `m` above it (core.py lines 86 and 106). -/
def tsCat (fine m : Nat) : Nat :=
  fine % 8 + 8 * (m % mMod)

/-- Reset state of an `InputGater`. -/
def gaterReset : GaterState :=
  { got_ref := false, triggered := false, ref_ts := 0, sig_ts := 0,
    abs_gate_start := 0, abs_gate_stop := 0 }

/-- One clock of `InputGater` (core.py lines 88-117).  The first synchronous
block latches the reference event and applies `clear` (which, coming later in
the block, wins over the reference latch for `got_ref`); the second block,
which comes after the first in the module's synchronous list, latches a signal
edge inside the *currently stored* absolute window and therefore wins over
`clear` for `triggered`. -/
def gaterStep (c : GaterCfg) (m : Nat) (i : GaterIn) (g : GaterState) : GaterState :=
  let tRef := tsCat i.refFine m
  let tSig := tsCat i.sigFine m
  let triggering := g.abs_gate_start ≤ tSig ∧ tSig ≤ g.abs_gate_stop
  let latching := i.sigStb ∧ ¬ g.triggered ∧ triggering
  { got_ref := if i.clear then false else if i.refStb then true else g.got_ref
    triggered := if latching then true else if i.clear then false else g.triggered
    ref_ts := if i.refStb then tRef else g.ref_ts
    sig_ts := if latching then tSig else g.sig_ts
    abs_gate_start := if i.refStb then (c.gate_start + tRef) % ecMod else g.abs_gate_start
    abs_gate_stop := if i.refStb then (c.gate_stop + tRef) % ecMod else g.abs_gate_stop }

/-! ### Heralder (core.py lines 120-133) -/

/-- `matches` vector of the `Heralder`: bit `i` is `patterns[i] == sig`. -/
def heralderMatches (p0 p1 p2 p3 sig : Nat) : Nat :=
  (if p0 = sig then 1 else 0) + 2 * (if p1 = sig then 1 else 0)
    + 4 * (if p2 = sig then 1 else 0) + 8 * (if p3 = sig then 1 else 0)

/-- `herald = (pattern_ens & matches) != 0` (core.py line 133). -/
def heralderHerald (ens p0 p1 p2 p3 sig : Nat) : Bool :=
  (ens &&& heralderMatches p0 p1 p2 p3 sig) ≠ 0

/-! ### MainStateMachine (core.py lines 173-308) -/

/-- FSM states of `MainStateMachine` (core.py lines 272-308). -/
inductive Fsm where
  | idle
  | triggerSlave
  | triggerSlave2
  | counter
  | slaveSuccessWait
  | slaveSuccessCheck
  deriving DecidableEq, Repr

/-- Per-clock inputs of `MainStateMachine`. -/
structure MSMIn where
  run_stb : Bool
  is_master : Bool
  standalone : Bool
  herald : Bool
  trigger_in_raw : Bool
  success_in_raw : Bool
  slave_ready_raw : Bool
  timeout_in_raw : Bool
  time_remaining_buf : Nat
  m_end : Nat
  deriving DecidableEq, Repr

/-- Registered state of `MainStateMachine`. -/
structure MSMState where
  fsm : Fsm
  m : Nat
  time_remaining : Nat
  cycles_completed : Nat
  running : Bool
  ready : Bool
  success : Bool
  done_d : Bool
  trigger_in : Bool
  success_in : Bool
  slave_ready : Bool
  timeout_in : Bool
  deriving DecidableEq, Repr

/-- `act_as_master = is_master | standalone` (core.py line 196). -/
def actAsMaster (i : MSMIn) : Bool :=
  i.is_master || i.standalone

/-- `cycle_starting` is combinationally asserted while the FSM is in `IDLE`
(core.py line 273). -/
def cycleStarting (s : MSMState) : Bool :=
  s.fsm = Fsm.idle

/-- `cycle_ending = (m == m_end)` (core.py line 218). -/
def cycleEnding (s : MSMState) (i : MSMIn) : Bool :=
  s.m = i.m_end

/-- `timeout = (time_remaining == 0) | (~act_as_master & timeout_in)`
(core.py lines 240-241); `timeout_in` is the registered input. -/
def timeoutSig (s : MSMState) (i : MSMIn) : Bool :=
  s.time_remaining = 0 || (!(actAsMaster i) && s.timeout_in)

/-- `finishing = ~run_stb & running & (timeout | success)` (core.py line 254). -/
def finishing (s : MSMState) (i : MSMIn) : Bool :=
  !i.run_stb && s.running && (timeoutSig s i || s.success)

/-- `done = finishing & cycle_starting` (core.py line 256). -/
def doneSig (s : MSMState) (i : MSMIn) : Bool :=
  finishing s i && cycleStarting s

/-- `done_stb = done & ~done_d` (core.py line 257). -/
def doneStb (s : MSMState) (i : MSMIn) : Bool :=
  doneSig s i && !s.done_d

/-- Decrement of a 32-bit down counter; the register wraps on underflow. -/
def dec32 (n : Nat) : Nat :=
  if n = 0 then trMod - 1 else n - 1

/-- One clock of `MainStateMachine`.  The parent's synchronous blocks
(registered inputs, `running`, `time_remaining`, `ready`/`cycles_completed`/
`success`/`done_d`) come first; the FSM submodule's `NextState`/`NextValue`
assignments come last and win on conflicts (core.py lines 224-308). -/
def msmStep (s : MSMState) (i : MSMIn) : MSMState :=
  { fsm :=
      match s.fsm with
      | Fsm.idle =>
          if actAsMaster i then
            if !(finishing s i) && s.ready && (s.slave_ready || i.standalone) then
              Fsm.triggerSlave
            else Fsm.idle
          else
            if !(finishing s i) && s.ready && s.trigger_in then Fsm.counter
            else Fsm.idle
      | Fsm.triggerSlave => Fsm.triggerSlave2
      | Fsm.triggerSlave2 => Fsm.counter
      | Fsm.counter =>
          if cycleEnding s i then
            if actAsMaster i then Fsm.idle else Fsm.slaveSuccessWait
          else Fsm.counter
      | Fsm.slaveSuccessWait => Fsm.slaveSuccessCheck
      | Fsm.slaveSuccessCheck => Fsm.idle
    m :=
      match s.fsm with
      | Fsm.idle => 0
      | Fsm.counter => (s.m + 1) % mMod
      | _ => s.m
    time_remaining :=
      if i.run_stb then i.time_remaining_buf % trMod
      else if timeoutSig s i then s.time_remaining
      else dec32 s.time_remaining
    cycles_completed :=
      if s.fsm = Fsm.counter ∧ cycleEnding s i then (s.cycles_completed + 1) % ecMod
      else if i.run_stb then 0
      else s.cycles_completed
    running :=
      if doneStb s i then false else if i.run_stb then true else s.running
    ready :=
      if finishing s i then false else if i.run_stb then true else s.ready
    success :=
      if s.fsm = Fsm.counter ∧ cycleEnding s i ∧ actAsMaster i ∧ i.herald then true
      else if s.fsm = Fsm.slaveSuccessCheck ∧ s.success_in then true
      else if i.run_stb then false
      else s.success
    done_d := doneSig s i
    trigger_in := i.trigger_in_raw
    success_in := i.success_in_raw
    slave_ready := i.slave_ready_raw
    timeout_in := i.timeout_in_raw }

/-- Reset state of `MainStateMachine`. -/
def msmReset : MSMState :=
  { fsm := Fsm.idle, m := 0, time_remaining := 0, cycles_completed := 0,
    running := false, ready := false, success := false, done_d := false,
    trigger_in := false, success_in := false, slave_ready := false,
    timeout_in := false }

/-- Trace of `MainStateMachine` from an initial state under an input stream. -/
def msmTrace (init : MSMState) (inp : Nat → MSMIn) : Nat → MSMState
  | 0 => init
  | t + 1 => msmStep (msmTrace init inp t) (inp t)

/-! ### EntanglerCore composition (core.py lines 311-446) -/

/-- Configuration registers of the composed core, as written through the
register interface of `phy.py`. -/
structure CoreCfg where
  sc0 : SeqCfg
  sc1 : SeqCfg
  sc2 : SeqCfg
  sc3 : SeqCfg
  gc0 : GaterCfg
  gc1 : GaterCfg
  gc2 : GaterCfg
  gc3 : GaterCfg
  hp0 : Nat
  hp1 : Nat
  hp2 : Nat
  hp3 : Nat
  hens : Nat
  pcp0 : List Nat
  pcp1 : List Nat
  pcp2 : List Nat
  pcp3 : List Nat
  m_end : Nat
  enable : Bool
  is_master : Bool
  standalone : Bool
  deriving DecidableEq, Repr

/-- Per-clock external inputs of the composed core: the run strobe and timeout
buffer from the register interface, the shared 422ps reference phy, the four
APD phys, and the raw inter-device link signals. -/
structure CoreIn where
  run_stb : Bool
  buf : Nat
  refStb : Bool
  refFine : Nat
  sigStb0 : Bool
  sigStb1 : Bool
  sigStb2 : Bool
  sigStb3 : Bool
  sigFine0 : Nat
  sigFine1 : Nat
  sigFine2 : Nat
  sigFine3 : Nat
  trigger_in_raw : Bool
  success_in_raw : Bool
  slave_ready_raw : Bool
  timeout_in_raw : Bool
  deriving DecidableEq, Repr

/-- Registered state of the composed `EntanglerCore`: the main state machine,
four input gaters, four sequencer outputs, four single-channel counters, four
pattern counters and the trigger counter. -/
structure CoreState where
  msm : MSMState
  g0 : GaterState
  g1 : GaterState
  g2 : GaterState
  g3 : GaterState
  s0 : Bool
  s1 : Bool
  s2 : Bool
  s3 : Bool
  c0 : Nat
  c1 : Nat
  c2 : Nat
  c3 : Nat
  p0 : Nat
  p1 : Nat
  p2 : Nat
  p3 : Nat
  triggers_received : Nat
  deriving DecidableEq, Repr

/-- `heralder.sig = Cat(*(g.triggered for g in apd_gaters))` (core.py line 417). -/
def coreSig (s : CoreState) : Nat :=
  (if s.g0.triggered then 1 else 0) + 2 * (if s.g1.triggered then 1 else 0)
    + 4 * (if s.g2.triggered then 1 else 0) + 8 * (if s.g3.triggered then 1 else 0)

/-- The heralder `matches` vector of the composed core. -/
def coreMatches (c : CoreCfg) (s : CoreState) : Nat :=
  heralderMatches c.hp0 c.hp1 c.hp2 c.hp3 (coreSig s)

/-- `msm.herald = heralder.herald` (core.py line 425). -/
def coreHerald (c : CoreCfg) (s : CoreState) : Bool :=
  heralderHerald c.hens c.hp0 c.hp1 c.hp2 c.hp3 (coreSig s)

/-- The `MainStateMachine` input vector assembled by the composed core. -/
def coreMsmIn (c : CoreCfg) (s : CoreState) (i : CoreIn) : MSMIn :=
  { run_stb := i.run_stb
    is_master := c.is_master
    standalone := c.standalone
    herald := coreHerald c s
    trigger_in_raw := i.trigger_in_raw
    success_in_raw := i.success_in_raw
    slave_ready_raw := i.slave_ready_raw
    timeout_in_raw := i.timeout_in_raw
    time_remaining_buf := i.buf
    m_end := c.m_end }

/-- One clock of an event counter (`CounterBase`, core.py lines 136-153):
`If(read_stb, If(match, counter+1))` then `If(reset, 0)`, reset winning.
The composed core drives `read_stb = cycle_ending` and `reset = run_stb`
(core.py lines 441-446). -/
def counterStep (reset rd mtch : Bool) (c : Nat) : Nat :=
  if reset then 0 else if rd ∧ mtch then (c + 1) % trMod else c

/-- One clock of the composed `EntanglerCore`: gater and sequencer `clear` is
`msm.cycle_starting` (core.py lines 420-423), events are counted on
`cycle_ending` (core.py lines 430-446), and the heralder output feeds the
state machine's `herald` input. -/
def coreStep (c : CoreCfg) (s : CoreState) (i : CoreIn) : CoreState :=
  let mi := coreMsmIn c s i
  let clr := cycleStarting s.msm
  let ce := cycleEnding s.msm mi
  let m := s.msm.m
  let sig := coreSig s
  { msm := msmStep s.msm mi
    g0 := gaterStep c.gc0 m
      { refStb := i.refStb, refFine := i.refFine, sigStb := i.sigStb0,
        sigFine := i.sigFine0, clear := clr } s.g0
    g1 := gaterStep c.gc1 m
      { refStb := i.refStb, refFine := i.refFine, sigStb := i.sigStb1,
        sigFine := i.sigFine1, clear := clr } s.g1
    g2 := gaterStep c.gc2 m
      { refStb := i.refStb, refFine := i.refFine, sigStb := i.sigStb2,
        sigFine := i.sigFine2, clear := clr } s.g2
    g3 := gaterStep c.gc3 m
      { refStb := i.refStb, refFine := i.refFine, sigStb := i.sigStb3,
        sigFine := i.sigFine3, clear := clr } s.g3
    s0 := seqStep c.sc0 m clr s.s0
    s1 := seqStep c.sc1 m clr s.s1
    s2 := seqStep c.sc2 m clr s.s2
    s3 := seqStep c.sc3 m clr s.s3
    c0 := counterStep i.run_stb ce s.g0.triggered s.c0
    c1 := counterStep i.run_stb ce s.g1.triggered s.c1
    c2 := counterStep i.run_stb ce s.g2.triggered s.c2
    c3 := counterStep i.run_stb ce s.g3.triggered s.c3
    p0 := counterStep i.run_stb ce (c.pcp0.any fun p => p = sig) s.p0
    p1 := counterStep i.run_stb ce (c.pcp1.any fun p => p = sig) s.p1
    p2 := counterStep i.run_stb ce (c.pcp2.any fun p => p = sig) s.p2
    p3 := counterStep i.run_stb ce (c.pcp3.any fun p => p = sig) s.p3
    triggers_received :=
      if i.run_stb then 0
      else if ce ∧ s.g0.got_ref then (s.triggers_received + 1) % ecMod
      else s.triggers_received }

/-- Reset state of the composed core. -/
def coreReset : CoreState :=
  { msm := msmReset, g0 := gaterReset, g1 := gaterReset, g2 := gaterReset,
    g3 := gaterReset, s0 := false, s1 := false, s2 := false, s3 := false,
    c0 := 0, c1 := 0, c2 := 0, c3 := 0, p0 := 0, p1 := 0, p2 := 0, p3 := 0,
    triggers_received := 0 }

/-- Trace of the composed core from an initial state under an input stream. -/
def coreTrace (c : CoreCfg) (init : CoreState) (inp : Nat → CoreIn) : Nat → CoreState
  | 0 => init
  | t + 1 => coreStep c (coreTrace c init inp t) (inp t)

/-! ### Register interface (phy.py) -/

/-- Registered state of the read side of the rtlink interface
(phy.py lines 96-121). -/
structure IfaceState where
  read : Bool
  readCounters : Bool
  readTimestamps : Bool
  readAddr : Nat
  deriving DecidableEq, Repr

/-- Reset state of the read side of the interface. -/
def ifaceReset : IfaceState :=
  { read := false, readCounters := false, readTimestamps := false, readAddr := 0 }

/-- `read_en = rtlink.o.address[5]` (phy.py line 37). -/
def readEn (addr : Nat) : Bool :=
  addr / 32 % 2 = 1

/-- One clock of the read-side registers (phy.py lines 111-121): `read` clears
itself, and a strobed output event reloads `read`, `read_counters`,
`read_timestamps` and `read_addr`; the reload comes later and wins. -/
def ifaceStep (st : IfaceState) (ostb : Bool) (addr : Nat) : IfaceState :=
  if ostb then
    { read := readEn addr
      readCounters := addr / 8 % 4 = 2
      readTimestamps := addr / 8 % 4 = 1
      readAddr := addr % 8 }
  else
    { st with read := false }

/-- `run_stb = (rtlink.o.address == 1) & rtlink.o.stb` (phy.py line 58). -/
def runStbSig (ostb : Bool) (addr : Nat) : Bool :=
  ostb && addr = 1

/-- The write decoding of an output event (phy.py lines 61-93).  Timing writes
truncate to the 11-bit sequencer registers or the 14-bit gater registers,
`m_end` truncates to its 10-bit width, and herald and counter patterns are
unpacked in 4-bit fields.  The `is_master` write (rio_phy domain) is treated
in the same clock domain. -/
def writeDecode (c : CoreCfg) (ostb : Bool) (addr data : Nat) : CoreCfg :=
  if ¬ ostb then c
  else if addr / 8 % 8 = 1 then
    let start11 := data % 2048
    let stop11 := data / 65536 % 2048
    let start14 := data % 16384
    let stop14 := data / 65536 % 16384
    match addr % 8 with
    | 0 => { c with sc0 := { m_start := start11, m_stop := stop11 } }
    | 1 => { c with sc1 := { m_start := start11, m_stop := stop11 } }
    | 2 => { c with sc2 := { m_start := start11, m_stop := stop11 } }
    | 3 => { c with sc3 := { m_start := start11, m_stop := stop11 } }
    | 4 => { c with gc0 := { gate_start := start14, gate_stop := stop14 } }
    | 5 => { c with gc1 := { gate_start := start14, gate_stop := stop14 } }
    | 6 => { c with gc2 := { gate_start := start14, gate_stop := stop14 } }
    | _ => { c with gc3 := { gate_start := start14, gate_stop := stop14 } }
  else if addr / 8 % 8 = 2 then
    let pats := [data % 16, data / 16 % 16, data / 256 % 16, data / 4096 % 16]
    match addr % 8 with
    | 0 => { c with pcp0 := pats }
    | 1 => { c with pcp1 := pats }
    | 2 => { c with pcp2 := pats }
    | 3 => { c with pcp3 := pats }
    | _ => c
  else if addr = 0 then
    { c with enable := data % 2 = 1, is_master := data / 2 % 2 = 1,
             standalone := data / 4 % 2 = 1 }
  else if addr = 2 then
    { c with m_end := data % mMod }
  else if addr = 3 then
    { c with hp0 := data % 16, hp1 := data / 16 % 16, hp2 := data / 256 % 16,
             hp3 := data / 4096 % 16, hens := data / 65536 % 16 }
  else c

/-- The `timeout` status bit as read back through the interface, using the
configured role bits. -/
def coreTimeout (c : CoreCfg) (s : CoreState) : Bool :=
  s.msm.time_remaining = 0 || (!(c.is_master || c.standalone) && s.msm.timeout_in)

/-- `status = Cat(ready, success, timeout)` (phy.py lines 123-126). -/
def statusVal (c : CoreCfg) (s : CoreState) : Nat :=
  (if s.msm.ready then 1 else 0) + 2 * (if s.msm.success then 1 else 0)
    + 4 * (if coreTimeout c s then 1 else 0)

/-- `reg_data` mux (phy.py lines 128-134); the register is 14 bits wide, so
wider sources truncate. -/
def regData (c : CoreCfg) (s : CoreState) (ra : Nat) : Nat :=
  match ra with
  | 0 => statusVal c s % ecMod
  | 1 => s.msm.cycles_completed % ecMod
  | 2 => s.msm.time_remaining % ecMod
  | 3 => s.triggers_received % ecMod
  | _ => 0

/-- `timing_data` mux over `[sig_ts x4, ref_ts of gater 0]`
(phy.py lines 101-108); the signal is 14 bits wide. -/
def timingData (s : CoreState) (ra : Nat) : Nat :=
  match ra with
  | 0 => s.g0.sig_ts % ecMod
  | 1 => s.g1.sig_ts % ecMod
  | 2 => s.g2.sig_ts % ecMod
  | 3 => s.g3.sig_ts % ecMod
  | 4 => s.g0.ref_ts % ecMod
  | _ => 0

/-- `counter_data` mux over the eight 32-bit counters (phy.py lines 136-139);
the signal is 14 bits wide, so the counters truncate. -/
def counterData (s : CoreState) (ra : Nat) : Nat :=
  match ra with
  | 0 => s.c0 % ecMod
  | 1 => s.c1 % ecMod
  | 2 => s.c2 % ecMod
  | 3 => s.c3 % ecMod
  | 4 => s.p0 % ecMod
  | 5 => s.p1 % ecMod
  | 6 => s.p2 % ecMod
  | 7 => s.p3 % ecMod
  | _ => 0

/-- `rtlink.i.stb = read | (enable & done_stb)` (phy.py line 148). -/
def iStb (st : IfaceState) (enable dStb : Bool) : Bool :=
  st.read || (enable && dStb)

/-- `rtlink.i.data` mux (phy.py lines 149-158): a finishing core reports the
herald matches on success or the sentinel `0x3fff` on timeout; otherwise the
read muxes select counters, timestamps or status registers. -/
def iData (c : CoreCfg) (s : CoreState) (st : IfaceState) (dStb : Bool) : Nat :=
  if c.enable && dStb then
    if s.msm.success then coreMatches c s else 16383
  else if st.readCounters then counterData s st.readAddr
  else if st.readTimestamps then timingData s st.readAddr
  else regData c s st.readAddr

/-! ### Concrete configurations and input schedules used in the analysis -/

/-- A quiet `MainStateMachine` input: no strobes, all zeros. -/
def quietMsmIn : MSMIn :=
  { run_stb := false, is_master := false, standalone := false, herald := false,
    trigger_in_raw := false, success_in_raw := false, slave_ready_raw := false,
    timeout_in_raw := false, time_remaining_buf := 0, m_end := 0 }

/-- A quiet composed-core input: no strobes, all zeros. -/
def quietCoreIn : CoreIn :=
  { run_stb := false, buf := 0, refStb := false, refFine := 0,
    sigStb0 := false, sigStb1 := false, sigStb2 := false, sigStb3 := false,
    sigFine0 := 0, sigFine1 := 0, sigFine2 := 0, sigFine3 := 0,
    trigger_in_raw := false, success_in_raw := false, slave_ready_raw := false,
    timeout_in_raw := false }

/-- A baseline core configuration: all timing registers zero, no heralds. -/
def zeroCoreCfg : CoreCfg :=
  { sc0 := ⟨0, 0⟩, sc1 := ⟨0, 0⟩, sc2 := ⟨0, 0⟩, sc3 := ⟨0, 0⟩,
    gc0 := ⟨0, 0⟩, gc1 := ⟨0, 0⟩, gc2 := ⟨0, 0⟩, gc3 := ⟨0, 0⟩,
    hp0 := 0, hp1 := 0, hp2 := 0, hp3 := 0, hens := 0,
    pcp0 := [0, 0, 0, 0], pcp1 := [0, 0, 0, 0], pcp2 := [0, 0, 0, 0],
    pcp3 := [0, 0, 0, 0],
    m_end := 0, enable := true, is_master := false, standalone := false }

/-- Standalone-master configuration for the pre-reference-edge scenario:
cycle length 5, gater 0 window 8..16 mu after the reference, no heralds. -/
def c1Cfg : CoreCfg :=
  { zeroCoreCfg with gc0 := { gate_start := 8, gate_stop := 16 },
                     m_end := 5, is_master := true, standalone := true }

/-- Input schedule for the pre-reference-edge scenario: run strobe at clock 0,
a reference edge at clock 6 (during the first attempt, at `m = 2`), and a
signal edge on APD 0 at clock 16 (during the *second* attempt, at `m = 3`,
before any reference edge of that attempt). -/
def c1Inp (t : Nat) : CoreIn :=
  { quietCoreIn with run_stb := t = 0, buf := 1000, refStb := t = 6,
                     sigStb0 := t = 16 }

/-- Standalone-master schedule with cycle length 0 for the counter-overshoot
scenario: run strobe at clock 0 only. -/
def c2Inp (t : Nat) : MSMIn :=
  { quietMsmIn with run_stb := t = 0, is_master := true, standalone := true,
                    time_remaining_buf := 100 }

/-- Slave configuration with `m_start = 1 > m_end = 0` for sequencer 0. -/
def c9Cfg : CoreCfg :=
  { zeroCoreCfg with sc0 := { m_start := 1, m_stop := 1 }, m_end := 0 }

/-- Slave schedule: run strobe at clock 0, the master trigger line held high. -/
def c9Inp (t : Nat) : CoreIn :=
  { quietCoreIn with run_stb := t = 0, buf := 100, trigger_in_raw := true }

/-- Standalone configuration with `m_start = 7 > m_end = 3` on sequencer 0. -/
def c9wCfg : CoreCfg :=
  { zeroCoreCfg with sc0 := { m_start := 7, m_stop := 9 }, m_end := 3,
                     standalone := true }

/-- A main-state-machine state with the run flag set and the timer expired,
as left behind by a timed-out run waiting in `IDLE`. -/
def c4State : CoreState :=
  { coreReset with msm := { msmReset with running := true } }

/-- Clocks spent in the `COUNTER` phase until `m` wraps around to `m_end`,
plus the (at most three) clocks needed to re-enter `IDLE` afterwards. -/
def distC (E m : Nat) : Nat :=
  (E + mMod - m) % mMod + 3

/-- Upper bound on the clocks until the state machine next visits `IDLE`,
assuming a constant `m_end = E`. -/
def msmDist (E : Nat) (s : MSMState) : Nat :=
  match s.fsm with
  | Fsm.idle => 0
  | Fsm.triggerSlave => distC E s.m + 2
  | Fsm.triggerSlave2 => distC E s.m + 1
  | Fsm.counter => distC E s.m
  | Fsm.slaveSuccessWait => 2
  | Fsm.slaveSuccessCheck => 1

/-- Termination measure for the `done_stb` liveness argument: every clock of
a run that does not assert `done` either moves the FSM closer to `IDLE` or
burns one tick of `time_remaining`. -/
def msmMeasure (E : Nat) (s : MSMState) : Nat :=
  s.time_remaining * (mMod + 6) + msmDist E s

/-- Standalone-master schedule used to witness the `done_stb` theorem:
run strobe at clock 0, three clocks of timeout budget, `m_end = 0`. -/
def c3wIn (t : Nat) : MSMIn :=
  { quietMsmIn with run_stb := t = 0, is_master := true, standalone := true,
                    time_remaining_buf := 3 }

/-! ## Theorems -/

/-- C1: the claim states that in every reachable state of an `InputGater` in
the composed core, `triggered = 1` implies `got_ref = 1`, and that a signal
edge arriving before the first reference edge of an attempt never sets
`triggered`.  The code violates this: `abs_gate_start`/`abs_gate_stop` are not
cleared between attempts, so the window computed from attempt 1's reference
edge (clock 6, `m = 2`, window 24..32 mu) is still loaded during attempt 2,
and the signal edge at clock 16 (`m = 3`, i.e. 24 mu, before any reference
edge of attempt 2) sets `triggered` while `got_ref = 0`. -/
theorem c1_pre_reference_edge_sets_triggered :
    (coreTrace c1Cfg coreReset c1Inp 17).g0.triggered = true ∧
      (coreTrace c1Cfg coreReset c1Inp 17).g0.got_ref = false := by
  decide

/-- C2 counterexample: with `m_end = 0` (standalone master, run strobe at
clock 0), five clocks later the machine is back in `IDLE` with `running = 1`
and `m = 1 > m_end`, because `COUNTER` increments `m` unconditionally on the
`cycle_ending` clock (core.py line 291). -/
theorem c2_counterexample :
    (msmTrace msmReset c2Inp 5).running = true ∧
      (c2Inp 5).m_end = 0 ∧ (msmTrace msmReset c2Inp 5).m = 1 ∧
      ¬ ((msmTrace msmReset c2Inp 5).m ≤ (c2Inp 5).m_end) := by
  decide

/-- Inductive invariant of the main state machine under a constant `m_end`:
`m ≤ m_end` in `COUNTER`, `m = 0` in the trigger states, and `m ≤ m_end + 1`
everywhere. -/
theorem c2_msm_inv (inp : Nat → MSMIn) (E : Nat) (hE1 : E < mMod)
    (hE : ∀ u, (inp u).m_end = E) : ∀ t,
    ((msmTrace msmReset inp t).fsm = Fsm.counter →
      (msmTrace msmReset inp t).m ≤ E) ∧
    ((msmTrace msmReset inp t).fsm = Fsm.triggerSlave ∨
        (msmTrace msmReset inp t).fsm = Fsm.triggerSlave2 →
      (msmTrace msmReset inp t).m = 0) ∧
    (msmTrace msmReset inp t).m ≤ E + 1 := by
  intro t
  induction t with
  | zero => simp [msmTrace, msmReset]
  | succ t ih =>
    obtain ⟨ih1, ih2, ih3⟩ := ih
    cases hf : (msmTrace msmReset inp t).fsm with
    | idle =>
        simp [msmTrace, msmStep, hf]
    | triggerSlave =>
        have hm0 := ih2 (Or.inl hf)
        simp [msmTrace, msmStep, hf, hm0]
    | triggerSlave2 =>
        have hm0 := ih2 (Or.inr hf)
        simp [msmTrace, msmStep, hf, hm0]
    | counter =>
        have hmE := ih1 hf
        by_cases hce : (msmTrace msmReset inp t).m = E
        · have hce2 : cycleEnding (msmTrace msmReset inp t) (inp t) = true := by
            simp [cycleEnding, hE t, hce]
          constructor
          · intro hc
            exfalso
            revert hc
            simp [msmTrace, msmStep, hf, hce2]
            split <;> simp
          constructor
          · intro hc
            exfalso
            revert hc
            simp [msmTrace, msmStep, hf, hce2]
            split <;> simp
          · calc (msmTrace msmReset inp (t + 1)).m
                = ((msmTrace msmReset inp t).m + 1) % mMod := by
                  simp [msmTrace, msmStep, hf]
              _ ≤ (msmTrace msmReset inp t).m + 1 := Nat.mod_le _ _
              _ ≤ E + 1 := by omega
        · have hce2 : cycleEnding (msmTrace msmReset inp t) (inp t) = false := by
            simp [cycleEnding, hE t, hce]
          have hmlt : (msmTrace msmReset inp t).m < E := by omega
          have hmod : ((msmTrace msmReset inp t).m + 1) % mMod
              = (msmTrace msmReset inp t).m + 1 :=
            Nat.mod_eq_of_lt (by omega)
          simp [msmTrace, msmStep, hf, hce2, hmod]
          omega
    | slaveSuccessWait =>
        simp [msmTrace, msmStep, hf, ih3]
    | slaveSuccessCheck =>
        simp [msmTrace, msmStep, hf, ih3]

/-- C2 (amended): while `running`, the counter satisfies `0 ≤ m ≤ m_end + 1`
(the value `m_end + 1` is reached on the clocks between `cycle_ending` and the
reset in `IDLE`); and `m = 0` on the clock after every `cycle_starting`. -/
theorem c2_m_bounds (inp : Nat → MSMIn) (E t : Nat) (hE1 : E < mMod)
    (hE : ∀ u, (inp u).m_end = E) :
    ((msmTrace msmReset inp t).running = true →
      (msmTrace msmReset inp t).m ≤ E + 1) ∧
    (cycleStarting (msmTrace msmReset inp t) = true →
      (msmTrace msmReset inp (t + 1)).m = 0) := by
  constructor
  · intro _
    exact (c2_msm_inv inp E hE1 hE t).2.2
  · intro hcs
    have hf : (msmTrace msmReset inp t).fsm = Fsm.idle := by
      simpa [cycleStarting] using hcs
    simp [msmTrace, msmStep, hf]

/-- C2 witness: the amended bound instantiated on the quiet schedule. -/
theorem c2_m_bounds_witness :
    (0 : Nat) < mMod ∧ (∀ u : Nat, ((fun _ : Nat => quietMsmIn) u).m_end = 0) ∧
      (((msmTrace msmReset (fun _ => quietMsmIn) 3).running = true →
          (msmTrace msmReset (fun _ => quietMsmIn) 3).m ≤ 0 + 1) ∧
        (cycleStarting (msmTrace msmReset (fun _ => quietMsmIn) 3) = true →
          (msmTrace msmReset (fun _ => quietMsmIn) 4).m = 0)) :=
  ⟨by decide, fun _ => rfl,
    c2_m_bounds (fun _ => quietMsmIn) 0 3 (by decide) (fun _ => rfl)⟩

/-- C4: with `enable = 1`, a `done_stb` clock (without a pending read) emits
an input event whose data is `heralder.matches` on success and `0x3fff`
(timeout sentinel) otherwise; with `enable = 0`, `done_stb` produces no event
(the strobe reduces to the pending-read flag).  Mirrors phy.py lines 147-158. -/
theorem c4_completion_event (c : CoreCfg) (s : CoreState) (i : CoreIn)
    (st : IfaceState) :
    (st.read = false → c.enable = true →
      doneStb s.msm (coreMsmIn c s i) = true →
      iStb st c.enable (doneStb s.msm (coreMsmIn c s i)) = true ∧
        iData c s st (doneStb s.msm (coreMsmIn c s i)) =
          if s.msm.success then coreMatches c s else 16383) ∧
    (c.enable = false →
      iStb st c.enable (doneStb s.msm (coreMsmIn c s i)) = st.read) := by
  constructor
  · intro h1 h2 h3
    constructor
    · simp [iStb, h1, h2, h3]
    · simp [iData, h2, h3]
  · intro h2
    simp [iStb, h2]

/-- C4 witness: a timed-out standalone run waiting in `IDLE` with `enable = 1`
emits the `0x3fff` sentinel. -/
theorem c4_completion_event_witness :
    ifaceReset.read = false ∧ zeroCoreCfg.enable = true ∧
      doneStb c4State.msm (coreMsmIn zeroCoreCfg c4State quietCoreIn) = true ∧
      iStb ifaceReset zeroCoreCfg.enable
        (doneStb c4State.msm (coreMsmIn zeroCoreCfg c4State quietCoreIn)) = true ∧
      iData zeroCoreCfg c4State ifaceReset
        (doneStb c4State.msm (coreMsmIn zeroCoreCfg c4State quietCoreIn)) = 16383 := by
  refine ⟨rfl, rfl, by decide, ?_, ?_⟩
  · exact ((c4_completion_event zeroCoreCfg c4State quietCoreIn ifaceReset).1
      rfl rfl (by decide)).1
  · have h := ((c4_completion_event zeroCoreCfg c4State quietCoreIn ifaceReset).1
      rfl rfl (by decide)).2
    simpa using h

/-- C5 counterexample: a sequencer with `m_start = m_stop = 5`, driven by a
counter passing once through 5 with `clear` deasserted, holds its output high
on clocks 6, 7 and 8 — not for exactly one clock — because the stop strobe is
masked by the simultaneous start strobe (core.py lines 39-45). -/
theorem c5_counterexample :
    seqTrace ⟨5, 5⟩ (fun t => t) (fun _ => false) 6 = true ∧
      seqTrace ⟨5, 5⟩ (fun t => t) (fun _ => false) 7 = true ∧
      seqTrace ⟨5, 5⟩ (fun t => t) (fun _ => false) 8 = true := by
  decide

/-- C5 (amended): with `m_start = m_stop`, the output rises one clock after
`m` equals the common value and then stays high on every clock until the next
`clear` — the coincident stop strobe is masked by the start strobe's priority,
so no single-clock pulse results. -/
theorem c5_start_stop_equal_stays_high (cfg : SeqCfg) (ms : Nat → Nat)
    (cl : Nat → Bool) (t u : Nat) (hss : cfg.m_start = cfg.m_stop)
    (hcl0 : cl t = false) (hm : ms t = cfg.m_start)
    (hcl : ∀ w, t < w → w ≤ u → cl w = false) :
    ∀ w, t < w → w ≤ u + 1 → seqTrace cfg ms cl w = true := by
  intro w
  induction w with
  | zero => omega
  | succ n ih =>
    intro h1 h2
    rcases Nat.lt_or_ge t n with hn | hn
    · have hout := ih hn (by omega)
      have hcln : cl n = false := hcl n hn (by omega)
      by_cases hms : ms n = cfg.m_start
      · simp [seqTrace, seqStep, hcln, hms]
      · have hms2 : ms n ≠ cfg.m_stop := by
          rw [← hss]; exact hms
        simp [seqTrace, seqStep, hcln, hms, hms2, hout]
    · have hnt : n = t := by omega
      subst hnt
      simp [seqTrace, seqStep, hcl0, hm]

/-- C5 witness: the amended statement instantiated on the identity counter. -/
theorem c5_start_stop_equal_stays_high_witness :
    (SeqCfg.mk 5 5).m_start = (SeqCfg.mk 5 5).m_stop ∧
      (fun _ : Nat => false) 5 = false ∧ (fun t : Nat => t) 5 = (SeqCfg.mk 5 5).m_start ∧
      (∀ w, 5 < w → w ≤ 9 → (fun _ : Nat => false) w = false) ∧
      (∀ w, 5 < w → w ≤ 10 →
        seqTrace (SeqCfg.mk 5 5) (fun t => t) (fun _ => false) w = true) :=
  ⟨rfl, rfl, rfl, fun _ _ _ => rfl,
    c5_start_stop_equal_stays_high (SeqCfg.mk 5 5) (fun t => t) (fun _ => false)
      5 9 rfl rfl rfl (fun _ _ _ => rfl)⟩

/-- C6: `time_remaining` is reloaded from `time_remaining_buf` on `run_stb`,
decrements by exactly one each clock while the run is active and no timeout
has fired (in particular it is nonzero then, so no 32-bit wrap occurs), stays
unchanged once `timeout` holds with `run_stb` deasserted, and `timeout` is
exactly `(time_remaining == 0) ∨ (¬act_as_master ∧ timeout_in)`
(core.py lines 240-249). -/
theorem c6_time_remaining (s : MSMState) (i : MSMIn) :
    (i.run_stb = true →
      (msmStep s i).time_remaining = i.time_remaining_buf % trMod) ∧
    (i.run_stb = false → s.running = true → timeoutSig s i = false →
      s.time_remaining ≠ 0 ∧
        (msmStep s i).time_remaining = s.time_remaining - 1) ∧
    (i.run_stb = false → timeoutSig s i = true →
      (msmStep s i).time_remaining = s.time_remaining) ∧
    (timeoutSig s i = true ↔
      (s.time_remaining = 0 ∨ (actAsMaster i = false ∧ s.timeout_in = true))) := by
  refine ⟨?_, ?_, ?_, ?_⟩
  · intro h
    simp [msmStep, h]
  · intro h1 _ h3
    have hne : s.time_remaining ≠ 0 := by
      intro h0
      simp [timeoutSig, h0] at h3
    exact ⟨hne, by simp [msmStep, h1, h3, dec32, hne]⟩
  · intro h1 h3
    simp [msmStep, h1, h3]
  · simp [timeoutSig, actAsMaster]

/-- C6 witness: the timer clauses instantiated on a running machine with five
clocks left and a quiet input. -/
theorem c6_time_remaining_witness :
    ((quietMsmIn.run_stb = true →
      (msmStep { msmReset with time_remaining := 5, running := true }
          quietMsmIn).time_remaining = quietMsmIn.time_remaining_buf % trMod) ∧
    (quietMsmIn.run_stb = false →
      ({ msmReset with time_remaining := 5, running := true } : MSMState).running = true →
      timeoutSig { msmReset with time_remaining := 5, running := true } quietMsmIn = false →
      ({ msmReset with time_remaining := 5, running := true } : MSMState).time_remaining ≠ 0 ∧
        (msmStep { msmReset with time_remaining := 5, running := true }
            quietMsmIn).time_remaining =
          ({ msmReset with time_remaining := 5, running := true } : MSMState).time_remaining - 1) ∧
    (quietMsmIn.run_stb = false →
      timeoutSig { msmReset with time_remaining := 5, running := true } quietMsmIn = true →
      (msmStep { msmReset with time_remaining := 5, running := true }
          quietMsmIn).time_remaining =
        ({ msmReset with time_remaining := 5, running := true } : MSMState).time_remaining) ∧
    (timeoutSig { msmReset with time_remaining := 5, running := true } quietMsmIn = true ↔
      (({ msmReset with time_remaining := 5, running := true } : MSMState).time_remaining = 0 ∨
        (actAsMaster quietMsmIn = false ∧
          ({ msmReset with time_remaining := 5, running := true } : MSMState).timeout_in = true)))) :=
  c6_time_remaining { msmReset with time_remaining := 5, running := true } quietMsmIn

/-- C8 counterexample: a TCYCLE write (address 0x02) of the value 1024 leaves
`m_end = 0`, although the low 11 bits of the data word are 1024: the register
is 10 bits wide (phy.py line 77, `data[:10]`). -/
theorem c8_counterexample :
    (writeDecode zeroCoreCfg true 2 1024).m_end = 0 ∧
      1024 % 2 ^ 11 = 1024 ∧ (0 : Nat) ≠ 1024 := by
  decide

/-- C8 (amended): a write to address 0x02 sets `m_end` to the low **10** bits
of the data word (`time_cursor_width = 10`), not 11; the 10-bit counter `m` is
compared zero-extended against the 11-bit sequencer registers. -/
theorem c8_tcycle_write (c : CoreCfg) (data : Nat) :
    (writeDecode c true 2 data).m_end = data % mMod ∧ mMod = 2 ^ 10 :=
  ⟨rfl, rfl⟩

/-- Gater timestamps and the computed absolute window are untouched on any
clock without the corresponding strobe, whatever `clear` does. -/
theorem gaterStep_no_edge (c : GaterCfg) (m : Nat) (i : GaterIn) (g : GaterState)
    (h1 : i.refStb = false) (h2 : i.sigStb = false) :
    (gaterStep c m i g).ref_ts = g.ref_ts ∧
      (gaterStep c m i g).sig_ts = g.sig_ts ∧
      (gaterStep c m i g).abs_gate_start = g.abs_gate_start ∧
      (gaterStep c m i g).abs_gate_stop = g.abs_gate_stop := by
  simp [gaterStep, h1, h2]

/-- Asserting `clear` on a clock without a signal edge resets `got_ref` and
`triggered`. -/
theorem gaterStep_clear (c : GaterCfg) (m : Nat) (i : GaterIn) (g : GaterState)
    (h2 : i.sigStb = false) (hc : i.clear = true) :
    (gaterStep c m i g).got_ref = false ∧ (gaterStep c m i g).triggered = false := by
  simp [gaterStep, h2, hc]

/-- Inductive invariant of the composed core's state machine when the
configured role is master or standalone: `m ≤ m_end` in `COUNTER`, `m = 0` in
the trigger states, and the slave wait/check states are unreachable. -/
theorem c9_fsm_inv (c : CoreCfg) (inp : Nat → CoreIn)
    (haam : (c.is_master || c.standalone) = true) (hE : c.m_end < mMod) : ∀ t,
    ((coreTrace c coreReset inp t).msm.fsm = Fsm.counter →
      (coreTrace c coreReset inp t).msm.m ≤ c.m_end) ∧
    ((coreTrace c coreReset inp t).msm.fsm = Fsm.triggerSlave ∨
        (coreTrace c coreReset inp t).msm.fsm = Fsm.triggerSlave2 →
      (coreTrace c coreReset inp t).msm.m = 0) ∧
    (coreTrace c coreReset inp t).msm.fsm ≠ Fsm.slaveSuccessWait ∧
    (coreTrace c coreReset inp t).msm.fsm ≠ Fsm.slaveSuccessCheck := by
  intro t
  have haam2 : ∀ s i, actAsMaster (coreMsmIn c s i) = true := by
    intro s i
    simp [actAsMaster, coreMsmIn, haam]
  induction t with
  | zero => simp [coreTrace, coreReset, msmReset]
  | succ t ih =>
    obtain ⟨ih1, ih2, ih3, ih4⟩ := ih
    cases hf : (coreTrace c coreReset inp t).msm.fsm with
    | idle =>
        simp [coreTrace, coreStep, msmStep, hf, haam2]
        constructor <;> (split <;> simp)
    | triggerSlave =>
        have hm0 := ih2 (Or.inl hf)
        simp [coreTrace, coreStep, msmStep, hf, hm0]
    | triggerSlave2 =>
        have hm0 := ih2 (Or.inr hf)
        simp [coreTrace, coreStep, msmStep, hf, hm0]
    | counter =>
        have hmE := ih1 hf
        by_cases hce : (coreTrace c coreReset inp t).msm.m = c.m_end
        · have hce2 : cycleEnding (coreTrace c coreReset inp t).msm
              (coreMsmIn c (coreTrace c coreReset inp t) (inp t)) = true := by
            simp [cycleEnding, coreMsmIn, hce]
          simp [coreTrace, coreStep, msmStep, hf, hce2, haam2]
        · have hce2 : cycleEnding (coreTrace c coreReset inp t).msm
              (coreMsmIn c (coreTrace c coreReset inp t) (inp t)) = false := by
            simp [cycleEnding, coreMsmIn, hce]
          have hmod : ((coreTrace c coreReset inp t).msm.m + 1) % mMod
              = (coreTrace c coreReset inp t).msm.m + 1 :=
            Nat.mod_eq_of_lt (by omega)
          simp [coreTrace, coreStep, msmStep, hf, hce2, hmod]
          omega
    | slaveSuccessWait => exact absurd hf ih3
    | slaveSuccessCheck => exact absurd hf ih4

/-- In master or standalone role, on every clock of the composed core either
`clear` is asserted (the FSM sits in `IDLE`) or the shared counter differs
from any value strictly above `m_end`. -/
theorem c9_safe (c : CoreCfg) (inp : Nat → CoreIn)
    (haam : (c.is_master || c.standalone) = true) (hE : c.m_end < mMod)
    (v : Nat) (hv : c.m_end < v) : ∀ t,
    cycleStarting (coreTrace c coreReset inp t).msm = true ∨
      (coreTrace c coreReset inp t).msm.m ≠ v := by
  intro t
  obtain ⟨i1, i2, i3, i4⟩ := c9_fsm_inv c inp haam hE t
  cases hf : (coreTrace c coreReset inp t).msm.fsm with
  | idle => exact Or.inl (by simp [cycleStarting, hf])
  | triggerSlave =>
      refine Or.inr ?_
      rw [i2 (Or.inl hf)]
      omega
  | triggerSlave2 =>
      refine Or.inr ?_
      rw [i2 (Or.inr hf)]
      omega
  | counter =>
      refine Or.inr ?_
      have := i1 hf
      omega
  | slaveSuccessWait => exact absurd hf i3
  | slaveSuccessCheck => exact absurd hf i4

/-- A sequencer output of the composed core stays low as long as on every
clock either `clear` is asserted or `m` misses `m_start`. -/
theorem c9_seq_stays_low (c : CoreCfg) (inp : Nat → CoreIn) (sc : SeqCfg)
    (sel : CoreState → Bool)
    (hstep : ∀ s i, sel (coreStep c s i) =
      seqStep sc s.msm.m (cycleStarting s.msm) (sel s))
    (hinit : sel coreReset = false)
    (hsafe : ∀ t, cycleStarting (coreTrace c coreReset inp t).msm = true ∨
      (coreTrace c coreReset inp t).msm.m ≠ sc.m_start) :
    ∀ t, sel (coreTrace c coreReset inp t) = false := by
  intro t
  induction t with
  | zero => exact hinit
  | succ t ih =>
    rw [coreTrace, hstep]
    by_cases hcl : cycleStarting (coreTrace c coreReset inp t).msm = true
    · simp [seqStep, hcl]
    · have hcl2 : cycleStarting (coreTrace c coreReset inp t).msm = false :=
        Bool.eq_false_iff.mpr hcl
      have hms : (coreTrace c coreReset inp t).msm.m ≠ sc.m_start :=
        (hsafe t).resolve_left hcl
      simp [seqStep, hcl2, hms, ih]

/-- C9 counterexample: in the slave role (trigger line held high by the
master) with `m_end = 0` and sequencer 0 configured with
`m_start = 1 > m_end`, the output rises: the counter holds `m = m_end + 1`
through `SLAVE_SUCCESS_WAIT`/`CHECK` with `clear` deasserted, so the start
strobe fires. -/
theorem c9_counterexample :
    (coreTrace c9Cfg coreReset c9Inp 4).s0 = true ∧
      c9Cfg.sc0.m_start = 1 ∧ c9Cfg.m_end = 0 ∧
      c9Cfg.is_master = false ∧ c9Cfg.standalone = false := by
  decide

/-- C9 (amended): in the master or standalone role a sequencer configured
with `m_start > m_end` never rises (on the only clocks with `m = m_end + 1`
the FSM is in `IDLE`, where `clear` wins); in the slave role this fails for
`m_start = m_end + 1`. -/
theorem c9_master_output_never_rises (c : CoreCfg) (inp : Nat → CoreIn)
    (haam : (c.is_master || c.standalone) = true) (hE : c.m_end < mMod) :
    (c.m_end < c.sc0.m_start →
      ∀ t, (coreTrace c coreReset inp t).s0 = false) ∧
    (c.m_end < c.sc1.m_start →
      ∀ t, (coreTrace c coreReset inp t).s1 = false) ∧
    (c.m_end < c.sc2.m_start →
      ∀ t, (coreTrace c coreReset inp t).s2 = false) ∧
    (c.m_end < c.sc3.m_start →
      ∀ t, (coreTrace c coreReset inp t).s3 = false) := by
  refine ⟨fun hv => ?_, fun hv => ?_, fun hv => ?_, fun hv => ?_⟩
  · exact c9_seq_stays_low c inp c.sc0 (fun s => s.s0) (fun s i => rfl) rfl
      (c9_safe c inp haam hE c.sc0.m_start hv)
  · exact c9_seq_stays_low c inp c.sc1 (fun s => s.s1) (fun s i => rfl) rfl
      (c9_safe c inp haam hE c.sc1.m_start hv)
  · exact c9_seq_stays_low c inp c.sc2 (fun s => s.s2) (fun s i => rfl) rfl
      (c9_safe c inp haam hE c.sc2.m_start hv)
  · exact c9_seq_stays_low c inp c.sc3 (fun s => s.s3) (fun s i => rfl) rfl
      (c9_safe c inp haam hE c.sc3.m_start hv)

/-- C9 witness: a standalone configuration with `m_start = 7 > m_end = 3`. -/
theorem c9_master_output_never_rises_witness :
    (c9wCfg.is_master || c9wCfg.standalone) = true ∧ c9wCfg.m_end < mMod ∧
      c9wCfg.m_end < c9wCfg.sc0.m_start ∧
      ∀ t, (coreTrace c9wCfg coreReset (fun _ => quietCoreIn) t).s0 = false :=
  ⟨rfl, by decide, by decide,
    (c9_master_output_never_rises c9wCfg (fun _ => quietCoreIn) rfl (by decide)).1
      (by decide)⟩

/-- C7 counterexample: the rtlink input data path is 14 bits wide, so a read
of TIMEREMAINING (address 0x22) with `time_remaining = 74565` returns
`74565 mod 2^14 = 9029`, not the 32-bit value (phy.py lines 128-134). -/
theorem c7_counterexample :
    iData zeroCoreCfg
        { coreReset with msm := { msmReset with time_remaining := 74565 } }
        (ifaceStep ifaceReset true 34) false = 9029 ∧
      ({ coreReset with msm := { msmReset with time_remaining := 74565 } } :
        CoreState).msm.time_remaining = 74565 ∧
      (9029 : Nat) ≠ 74565 := by
  decide

/-- C7 (amended): an output event on a read address (`addr[5] = 1`) writes no
core register and does not strobe `run_stb`; it raises the `read` flag for
exactly one clock, producing a single input event (whatever the
done-strobe), whose data is the **low 14 bits** of the selected register —
in particular TIMEREMAINING returns `time_remaining mod 2^14` and the
counter-result addresses return `counter mod 2^14`. -/
theorem c7_read_semantics (c : CoreCfg) (s : CoreState) (st : IfaceState)
    (addr : Nat) (h1 : 32 ≤ addr) (h2 : addr < 64) :
    (∀ data, writeDecode c true addr data = c) ∧
    runStbSig true addr = false ∧
    (ifaceStep st true addr).read = true ∧
    (∀ a2, (ifaceStep (ifaceStep st true addr) false a2).read = false) ∧
    (∀ en d, iStb (ifaceStep st true addr) en d = true) ∧
    (addr = 34 → iData c s (ifaceStep st true addr) false
        = s.msm.time_remaining % ecMod) ∧
    (∀ k, k < 8 → addr = 48 + k →
      iData c s (ifaceStep st true addr) false = counterData s k) := by
  refine ⟨?_, ?_, ?_, ?_, ?_, ?_, ?_⟩
  · intro data
    simp only [writeDecode]
    rw [if_neg (by simp), if_neg (by omega), if_neg (by omega),
      if_neg (by omega), if_neg (by omega), if_neg (by omega)]
  · simp [runStbSig]
    omega
  · simp [ifaceStep, readEn]
    omega
  · intro a2
    rfl
  · intro en d
    have hr : (ifaceStep st true addr).read = true := by
      simp [ifaceStep, readEn]
      omega
    simp [iStb, hr]
  · intro ha
    subst ha
    simp [iData, ifaceStep, regData]
  · intro k hk ha
    subst ha
    have e1 : (48 + k) / 8 % 4 = 2 := by omega
    have e2 : (48 + k) % 8 = k := by omega
    simp [iData, ifaceStep, e1, e2]

/-- C7 witness: the read semantics instantiated at the TIMEREMAINING address. -/
theorem c7_read_semantics_witness :
    (32 : Nat) ≤ 34 ∧ (34 : Nat) < 64 ∧
      ((∀ data, writeDecode zeroCoreCfg true 34 data = zeroCoreCfg) ∧
      runStbSig true 34 = false ∧
      (ifaceStep ifaceReset true 34).read = true ∧
      (∀ a2, (ifaceStep (ifaceStep ifaceReset true 34) false a2).read = false) ∧
      (∀ en d, iStb (ifaceStep ifaceReset true 34) en d = true) ∧
      ((34 : Nat) = 34 → iData zeroCoreCfg coreReset (ifaceStep ifaceReset true 34) false
          = coreReset.msm.time_remaining % ecMod) ∧
      (∀ k, k < 8 → (34 : Nat) = 48 + k →
        iData zeroCoreCfg coreReset (ifaceStep ifaceReset true 34) false
          = counterData coreReset k)) :=
  ⟨by decide, by decide,
    c7_read_semantics zeroCoreCfg coreReset ifaceReset 34 (by decide) (by decide)⟩

/-- Frame property of one gater instance of the composed core, generic in
the projection that picks the instance: across a window without a reference
edge and without a signal edge on that gater's channel, the four captured
registers persist, and every `cycle_starting` clear in the window resets only
`got_ref` and `triggered`. -/
theorem c10_gater_persist_aux (c : CoreCfg) (init : CoreState)
    (inp : Nat → CoreIn) (gc : GaterCfg) (sel : CoreState → GaterState)
    (sigsel : CoreIn → Bool) (finesel : CoreIn → Nat)
    (hstep : ∀ s i, sel (coreStep c s i) =
      gaterStep gc s.msm.m
        { refStb := i.refStb, refFine := i.refFine, sigStb := sigsel i,
          sigFine := finesel i, clear := cycleStarting s.msm } (sel s))
    (t1 t2 : Nat) (h12 : t1 ≤ t2)
    (hq : ∀ u, t1 ≤ u → u < t2 →
      (inp u).refStb = false ∧ sigsel (inp u) = false) :
    ((sel (coreTrace c init inp t2)).ref_ts
        = (sel (coreTrace c init inp t1)).ref_ts ∧
      (sel (coreTrace c init inp t2)).sig_ts
        = (sel (coreTrace c init inp t1)).sig_ts ∧
      (sel (coreTrace c init inp t2)).abs_gate_start
        = (sel (coreTrace c init inp t1)).abs_gate_start ∧
      (sel (coreTrace c init inp t2)).abs_gate_stop
        = (sel (coreTrace c init inp t1)).abs_gate_stop) ∧
    (∀ u, t1 ≤ u → u < t2 →
      cycleStarting (coreTrace c init inp u).msm = true →
      (sel (coreTrace c init inp (u + 1))).got_ref = false ∧
        (sel (coreTrace c init inp (u + 1))).triggered = false) := by
  have main : ∀ n, t1 ≤ n → (∀ u, t1 ≤ u → u < n →
      (inp u).refStb = false ∧ sigsel (inp u) = false) →
      (sel (coreTrace c init inp n)).ref_ts
        = (sel (coreTrace c init inp t1)).ref_ts ∧
      (sel (coreTrace c init inp n)).sig_ts
        = (sel (coreTrace c init inp t1)).sig_ts ∧
      (sel (coreTrace c init inp n)).abs_gate_start
        = (sel (coreTrace c init inp t1)).abs_gate_start ∧
      (sel (coreTrace c init inp n)).abs_gate_stop
        = (sel (coreTrace c init inp t1)).abs_gate_stop := by
    intro n
    induction n with
    | zero =>
        intro hn _
        have h0 : t1 = 0 := by omega
        subst h0
        exact ⟨rfl, rfl, rfl, rfl⟩
    | succ n ih =>
        intro hn hqn
        rcases Nat.lt_or_ge n t1 with hlt | hge
        · have h0 : t1 = n + 1 := by omega
          subst h0
          exact ⟨rfl, rfl, rfl, rfl⟩
        · obtain ⟨p1, p2, p3, p4⟩ := ih hge (fun u hu1 hu2 => hqn u hu1 (by omega))
          obtain ⟨e1, e2⟩ := hqn n hge (by omega)
          have step := gaterStep_no_edge gc (coreTrace c init inp n).msm.m
            { refStb := (inp n).refStb, refFine := (inp n).refFine,
              sigStb := sigsel (inp n), sigFine := finesel (inp n),
              clear := cycleStarting (coreTrace c init inp n).msm }
            (sel (coreTrace c init inp n)) e1 e2
          refine ⟨?_, ?_, ?_, ?_⟩
          · rw [coreTrace, hstep]
            exact step.1.trans p1
          · rw [coreTrace, hstep]
            exact step.2.1.trans p2
          · rw [coreTrace, hstep]
            exact step.2.2.1.trans p3
          · rw [coreTrace, hstep]
            exact step.2.2.2.trans p4
  refine ⟨main t2 h12 hq, ?_⟩
  intro u hu1 hu2 hcs
  have e2 : sigsel (inp u) = false := (hq u hu1 hu2).2
  have step := gaterStep_clear gc (coreTrace c init inp u).msm.m
    { refStb := (inp u).refStb, refFine := (inp u).refFine,
      sigStb := sigsel (inp u), sigFine := finesel (inp u),
      clear := cycleStarting (coreTrace c init inp u).msm }
    (sel (coreTrace c init inp u)) e2 hcs
  constructor
  · rw [coreTrace, hstep]
    exact step.1
  · rw [coreTrace, hstep]
    exact step.2

/-- C10: `clear` (asserted at every `cycle_starting`) and `run_stb` reset
only `got_ref` and `triggered` in each of the four `InputGater` instances;
`ref_ts`, `sig_ts`, `abs_gate_start` and `abs_gate_stop` keep their values
across any window without reference edges and without signal edges on that
gater's channel (the input stream, including `run_stb`, is otherwise
arbitrary), so a timestamp read at 0x28-0x2B (`sig_ts` of gaters 0-3) or
0x2C (`ref_ts` of gater 0) after such a window returns the previously
captured value (phy.py lines 101-108). -/
theorem c10_gater_captures_persist (c : CoreCfg) (init : CoreState)
    (inp : Nat → CoreIn) (t1 t2 : Nat) (h12 : t1 ≤ t2) :
    ((∀ u, t1 ≤ u → u < t2 →
        (inp u).refStb = false ∧ (inp u).sigStb0 = false) →
      (coreTrace c init inp t2).g0.ref_ts = (coreTrace c init inp t1).g0.ref_ts ∧
      (coreTrace c init inp t2).g0.sig_ts = (coreTrace c init inp t1).g0.sig_ts ∧
      (coreTrace c init inp t2).g0.abs_gate_start
        = (coreTrace c init inp t1).g0.abs_gate_start ∧
      (coreTrace c init inp t2).g0.abs_gate_stop
        = (coreTrace c init inp t1).g0.abs_gate_stop ∧
      (∀ u, t1 ≤ u → u < t2 →
        cycleStarting (coreTrace c init inp u).msm = true →
        (coreTrace c init inp (u + 1)).g0.got_ref = false ∧
          (coreTrace c init inp (u + 1)).g0.triggered = false) ∧
      timingData (coreTrace c init inp t2) 0
        = (coreTrace c init inp t1).g0.sig_ts % ecMod ∧
      timingData (coreTrace c init inp t2) 4
        = (coreTrace c init inp t1).g0.ref_ts % ecMod) ∧
    ((∀ u, t1 ≤ u → u < t2 →
        (inp u).refStb = false ∧ (inp u).sigStb1 = false) →
      (coreTrace c init inp t2).g1.ref_ts = (coreTrace c init inp t1).g1.ref_ts ∧
      (coreTrace c init inp t2).g1.sig_ts = (coreTrace c init inp t1).g1.sig_ts ∧
      (coreTrace c init inp t2).g1.abs_gate_start
        = (coreTrace c init inp t1).g1.abs_gate_start ∧
      (coreTrace c init inp t2).g1.abs_gate_stop
        = (coreTrace c init inp t1).g1.abs_gate_stop ∧
      (∀ u, t1 ≤ u → u < t2 →
        cycleStarting (coreTrace c init inp u).msm = true →
        (coreTrace c init inp (u + 1)).g1.got_ref = false ∧
          (coreTrace c init inp (u + 1)).g1.triggered = false) ∧
      timingData (coreTrace c init inp t2) 1
        = (coreTrace c init inp t1).g1.sig_ts % ecMod) ∧
    ((∀ u, t1 ≤ u → u < t2 →
        (inp u).refStb = false ∧ (inp u).sigStb2 = false) →
      (coreTrace c init inp t2).g2.ref_ts = (coreTrace c init inp t1).g2.ref_ts ∧
      (coreTrace c init inp t2).g2.sig_ts = (coreTrace c init inp t1).g2.sig_ts ∧
      (coreTrace c init inp t2).g2.abs_gate_start
        = (coreTrace c init inp t1).g2.abs_gate_start ∧
      (coreTrace c init inp t2).g2.abs_gate_stop
        = (coreTrace c init inp t1).g2.abs_gate_stop ∧
      (∀ u, t1 ≤ u → u < t2 →
        cycleStarting (coreTrace c init inp u).msm = true →
        (coreTrace c init inp (u + 1)).g2.got_ref = false ∧
          (coreTrace c init inp (u + 1)).g2.triggered = false) ∧
      timingData (coreTrace c init inp t2) 2
        = (coreTrace c init inp t1).g2.sig_ts % ecMod) ∧
    ((∀ u, t1 ≤ u → u < t2 →
        (inp u).refStb = false ∧ (inp u).sigStb3 = false) →
      (coreTrace c init inp t2).g3.ref_ts = (coreTrace c init inp t1).g3.ref_ts ∧
      (coreTrace c init inp t2).g3.sig_ts = (coreTrace c init inp t1).g3.sig_ts ∧
      (coreTrace c init inp t2).g3.abs_gate_start
        = (coreTrace c init inp t1).g3.abs_gate_start ∧
      (coreTrace c init inp t2).g3.abs_gate_stop
        = (coreTrace c init inp t1).g3.abs_gate_stop ∧
      (∀ u, t1 ≤ u → u < t2 →
        cycleStarting (coreTrace c init inp u).msm = true →
        (coreTrace c init inp (u + 1)).g3.got_ref = false ∧
          (coreTrace c init inp (u + 1)).g3.triggered = false) ∧
      timingData (coreTrace c init inp t2) 3
        = (coreTrace c init inp t1).g3.sig_ts % ecMod) := by
  refine ⟨fun hq => ?_, fun hq => ?_, fun hq => ?_, fun hq => ?_⟩
  · obtain ⟨⟨p1, p2, p3, p4⟩, hclr⟩ := c10_gater_persist_aux c init inp c.gc0
      (fun s => s.g0) (fun i => i.sigStb0) (fun i => i.sigFine0)
      (fun s i => rfl) t1 t2 h12 hq
    refine ⟨p1, p2, p3, p4, hclr, ?_, ?_⟩
    · show (coreTrace c init inp t2).g0.sig_ts % ecMod = _
      rw [p2]
    · show (coreTrace c init inp t2).g0.ref_ts % ecMod = _
      rw [p1]
  · obtain ⟨⟨p1, p2, p3, p4⟩, hclr⟩ := c10_gater_persist_aux c init inp c.gc1
      (fun s => s.g1) (fun i => i.sigStb1) (fun i => i.sigFine1)
      (fun s i => rfl) t1 t2 h12 hq
    refine ⟨p1, p2, p3, p4, hclr, ?_⟩
    show (coreTrace c init inp t2).g1.sig_ts % ecMod = _
    rw [p2]
  · obtain ⟨⟨p1, p2, p3, p4⟩, hclr⟩ := c10_gater_persist_aux c init inp c.gc2
      (fun s => s.g2) (fun i => i.sigStb2) (fun i => i.sigFine2)
      (fun s i => rfl) t1 t2 h12 hq
    refine ⟨p1, p2, p3, p4, hclr, ?_⟩
    show (coreTrace c init inp t2).g2.sig_ts % ecMod = _
    rw [p2]
  · obtain ⟨⟨p1, p2, p3, p4⟩, hclr⟩ := c10_gater_persist_aux c init inp c.gc3
      (fun s => s.g3) (fun i => i.sigStb3) (fun i => i.sigFine3)
      (fun s i => rfl) t1 t2 h12 hq
    refine ⟨p1, p2, p3, p4, hclr, ?_⟩
    show (coreTrace c init inp t2).g3.sig_ts % ecMod = _
    rw [p2]

/-- C10 witness: the persistence statement for all four gaters on a quiet
three-clock window. -/
theorem c10_gater_captures_persist_witness :
    (0 : Nat) ≤ 3 ∧
      ((coreTrace zeroCoreCfg coreReset (fun _ => quietCoreIn) 3).g0.ref_ts
          = (coreTrace zeroCoreCfg coreReset (fun _ => quietCoreIn) 0).g0.ref_ts ∧
        (coreTrace zeroCoreCfg coreReset (fun _ => quietCoreIn) 3).g0.sig_ts
          = (coreTrace zeroCoreCfg coreReset (fun _ => quietCoreIn) 0).g0.sig_ts ∧
        (coreTrace zeroCoreCfg coreReset (fun _ => quietCoreIn) 3).g0.abs_gate_start
          = (coreTrace zeroCoreCfg coreReset (fun _ => quietCoreIn) 0).g0.abs_gate_start ∧
        (coreTrace zeroCoreCfg coreReset (fun _ => quietCoreIn) 3).g0.abs_gate_stop
          = (coreTrace zeroCoreCfg coreReset (fun _ => quietCoreIn) 0).g0.abs_gate_stop ∧
        (∀ u, 0 ≤ u → u < 3 →
          cycleStarting (coreTrace zeroCoreCfg coreReset (fun _ => quietCoreIn) u).msm = true →
          (coreTrace zeroCoreCfg coreReset (fun _ => quietCoreIn) (u + 1)).g0.got_ref = false ∧
            (coreTrace zeroCoreCfg coreReset (fun _ => quietCoreIn) (u + 1)).g0.triggered = false) ∧
        timingData (coreTrace zeroCoreCfg coreReset (fun _ => quietCoreIn) 3) 0
          = (coreTrace zeroCoreCfg coreReset (fun _ => quietCoreIn) 0).g0.sig_ts % ecMod ∧
        timingData (coreTrace zeroCoreCfg coreReset (fun _ => quietCoreIn) 3) 4
          = (coreTrace zeroCoreCfg coreReset (fun _ => quietCoreIn) 0).g0.ref_ts % ecMod) ∧
      ((coreTrace zeroCoreCfg coreReset (fun _ => quietCoreIn) 3).g1.ref_ts
          = (coreTrace zeroCoreCfg coreReset (fun _ => quietCoreIn) 0).g1.ref_ts ∧
        (coreTrace zeroCoreCfg coreReset (fun _ => quietCoreIn) 3).g1.sig_ts
          = (coreTrace zeroCoreCfg coreReset (fun _ => quietCoreIn) 0).g1.sig_ts ∧
        (coreTrace zeroCoreCfg coreReset (fun _ => quietCoreIn) 3).g1.abs_gate_start
          = (coreTrace zeroCoreCfg coreReset (fun _ => quietCoreIn) 0).g1.abs_gate_start ∧
        (coreTrace zeroCoreCfg coreReset (fun _ => quietCoreIn) 3).g1.abs_gate_stop
          = (coreTrace zeroCoreCfg coreReset (fun _ => quietCoreIn) 0).g1.abs_gate_stop ∧
        (∀ u, 0 ≤ u → u < 3 →
          cycleStarting (coreTrace zeroCoreCfg coreReset (fun _ => quietCoreIn) u).msm = true →
          (coreTrace zeroCoreCfg coreReset (fun _ => quietCoreIn) (u + 1)).g1.got_ref = false ∧
            (coreTrace zeroCoreCfg coreReset (fun _ => quietCoreIn) (u + 1)).g1.triggered = false) ∧
        timingData (coreTrace zeroCoreCfg coreReset (fun _ => quietCoreIn) 3) 1
          = (coreTrace zeroCoreCfg coreReset (fun _ => quietCoreIn) 0).g1.sig_ts % ecMod) ∧
      ((coreTrace zeroCoreCfg coreReset (fun _ => quietCoreIn) 3).g2.ref_ts
          = (coreTrace zeroCoreCfg coreReset (fun _ => quietCoreIn) 0).g2.ref_ts ∧
        (coreTrace zeroCoreCfg coreReset (fun _ => quietCoreIn) 3).g2.sig_ts
          = (coreTrace zeroCoreCfg coreReset (fun _ => quietCoreIn) 0).g2.sig_ts ∧
        (coreTrace zeroCoreCfg coreReset (fun _ => quietCoreIn) 3).g2.abs_gate_start
          = (coreTrace zeroCoreCfg coreReset (fun _ => quietCoreIn) 0).g2.abs_gate_start ∧
        (coreTrace zeroCoreCfg coreReset (fun _ => quietCoreIn) 3).g2.abs_gate_stop
          = (coreTrace zeroCoreCfg coreReset (fun _ => quietCoreIn) 0).g2.abs_gate_stop ∧
        (∀ u, 0 ≤ u → u < 3 →
          cycleStarting (coreTrace zeroCoreCfg coreReset (fun _ => quietCoreIn) u).msm = true →
          (coreTrace zeroCoreCfg coreReset (fun _ => quietCoreIn) (u + 1)).g2.got_ref = false ∧
            (coreTrace zeroCoreCfg coreReset (fun _ => quietCoreIn) (u + 1)).g2.triggered = false) ∧
        timingData (coreTrace zeroCoreCfg coreReset (fun _ => quietCoreIn) 3) 2
          = (coreTrace zeroCoreCfg coreReset (fun _ => quietCoreIn) 0).g2.sig_ts % ecMod) ∧
      ((coreTrace zeroCoreCfg coreReset (fun _ => quietCoreIn) 3).g3.ref_ts
          = (coreTrace zeroCoreCfg coreReset (fun _ => quietCoreIn) 0).g3.ref_ts ∧
        (coreTrace zeroCoreCfg coreReset (fun _ => quietCoreIn) 3).g3.sig_ts
          = (coreTrace zeroCoreCfg coreReset (fun _ => quietCoreIn) 0).g3.sig_ts ∧
        (coreTrace zeroCoreCfg coreReset (fun _ => quietCoreIn) 3).g3.abs_gate_start
          = (coreTrace zeroCoreCfg coreReset (fun _ => quietCoreIn) 0).g3.abs_gate_start ∧
        (coreTrace zeroCoreCfg coreReset (fun _ => quietCoreIn) 3).g3.abs_gate_stop
          = (coreTrace zeroCoreCfg coreReset (fun _ => quietCoreIn) 0).g3.abs_gate_stop ∧
        (∀ u, 0 ≤ u → u < 3 →
          cycleStarting (coreTrace zeroCoreCfg coreReset (fun _ => quietCoreIn) u).msm = true →
          (coreTrace zeroCoreCfg coreReset (fun _ => quietCoreIn) (u + 1)).g3.got_ref = false ∧
            (coreTrace zeroCoreCfg coreReset (fun _ => quietCoreIn) (u + 1)).g3.triggered = false) ∧
        timingData (coreTrace zeroCoreCfg coreReset (fun _ => quietCoreIn) 3) 3
          = (coreTrace zeroCoreCfg coreReset (fun _ => quietCoreIn) 0).g3.sig_ts % ecMod) :=
  ⟨by decide,
    (c10_gater_captures_persist zeroCoreCfg coreReset (fun _ => quietCoreIn) 0 3
      (by decide)).1 (fun _ _ _ => ⟨rfl, rfl⟩),
    (c10_gater_captures_persist zeroCoreCfg coreReset (fun _ => quietCoreIn) 0 3
      (by decide)).2.1 (fun _ _ _ => ⟨rfl, rfl⟩),
    (c10_gater_captures_persist zeroCoreCfg coreReset (fun _ => quietCoreIn) 0 3
      (by decide)).2.2.1 (fun _ _ _ => ⟨rfl, rfl⟩),
    (c10_gater_captures_persist zeroCoreCfg coreReset (fun _ => quietCoreIn) 0 3
      (by decide)).2.2.2 (fun _ _ _ => ⟨rfl, rfl⟩)⟩

/-- Without `run_stb`, `time_remaining` never increases (it either holds on a
timeout clock or decrements from a nonzero value). -/
theorem c3_tr_step (s : MSMState) (i : MSMIn) (h : i.run_stb = false) :
    (msmStep s i).time_remaining ≤ s.time_remaining := by
  by_cases hto : timeoutSig s i = true
  · simp [msmStep, h, hto]
  · have hto2 : timeoutSig s i = false := Bool.eq_false_iff.mpr hto
    have hne : s.time_remaining ≠ 0 := by
      intro h0
      simp [timeoutSig, h0] at hto2
    simp [msmStep, h, hto2, dec32, hne]

/-- `running` persists across a clock without `done_stb`. -/
theorem c3_running_step (s : MSMState) (i : MSMIn) (h1 : s.running = true)
    (h2 : doneStb s i = false) : (msmStep s i).running = true := by
  simp [msmStep, h2, h1]

/-- A machine that is not running cannot produce `done_stb`. -/
theorem c3_doneStb_not_running (s : MSMState) (i : MSMIn)
    (h : s.running = false) : doneStb s i = false := by
  simp [doneStb, doneSig, finishing, h]

/-- `running = 0` persists across a clock without `run_stb`. -/
theorem c3_running_false_step (s : MSMState) (i : MSMIn)
    (h1 : s.running = false) (h2 : i.run_stb = false) :
    (msmStep s i).running = false := by
  have hds : doneStb s i = false := c3_doneStb_not_running s i h1
  simp [msmStep, hds, h2, h1]

/-- The counter stays below its 10-bit modulus along any trace. -/
theorem c3_m_lt (init : MSMState) (inp : Nat → MSMIn) (t0 : Nat)
    (hm : (msmTrace init inp t0).m < mMod) :
    ∀ t, t0 ≤ t → (msmTrace init inp t).m < mMod := by
  intro t
  induction t with
  | zero =>
      intro h
      have h0 : t0 = 0 := by omega
      subst h0
      exact hm
  | succ n ih =>
      intro h
      rcases Nat.lt_or_ge n t0 with h1 | h1
      · have h0 : t0 = n + 1 := by omega
        subst h0
        exact hm
      · have hn := ih h1
        cases hf : (msmTrace init inp n).fsm with
        | idle => simp [msmTrace, msmStep, hf, mMod]
        | counter =>
            have hlt : ((msmTrace init inp n).m + 1) % mMod < mMod :=
              Nat.mod_lt _ (by decide)
            simpa [msmTrace, msmStep, hf] using hlt
        | triggerSlave => simpa [msmTrace, msmStep, hf] using hn
        | triggerSlave2 => simpa [msmTrace, msmStep, hf] using hn
        | slaveSuccessWait => simpa [msmTrace, msmStep, hf] using hn
        | slaveSuccessCheck => simpa [msmTrace, msmStep, hf] using hn

/-- The distance-to-`IDLE` bound never exceeds `mMod + 4`. -/
theorem msmDist_le (E : Nat) (s : MSMState) : msmDist E s ≤ mMod + 4 := by
  have h : distC E s.m ≤ mMod + 2 := by
    have := Nat.mod_lt (E + mMod - s.m) (show 0 < mMod by decide)
    unfold distC
    omega
  cases hf : s.fsm <;> simp [msmDist, hf] <;> omega

/-- One `COUNTER` clock strictly decreases the distance to `IDLE` while
`m ≠ m_end`. -/
theorem distC_succ (E m : Nat) (hE : E < mMod) (hm : m < mMod) (hne : m ≠ E) :
    distC E ((m + 1) % mMod) < distC E m := by
  unfold distC mMod at *
  omega

/-- Descent: on any clock of a run (no `run_stb`, `running = 1`) that does not
assert `done`, the measure strictly decreases — either the FSM advances
toward `IDLE`, or (sitting in `IDLE` without finishing) the timer is nonzero
and ticks down. -/
theorem c3_descent (E : Nat) (s : MSMState) (i : MSMIn) (hE0 : i.m_end = E)
    (hE1 : E < mMod) (hrs : i.run_stb = false) (hmlt : s.m < mMod)
    (hrn : s.running = true) (hnd : doneSig s i = false) :
    msmMeasure E (msmStep s i) < msmMeasure E s := by
  have htr : (msmStep s i).time_remaining ≤ s.time_remaining := c3_tr_step s i hrs
  have hB : mMod + 6 = 1030 := by decide
  cases hf : s.fsm with
  | idle =>
      have hcs : cycleStarting s = true := by simp [cycleStarting, hf]
      have hfin : finishing s i = false := by
        simpa [doneSig, hcs] using hnd
      have hts : timeoutSig s i = false := by
        rcases Bool.or_eq_false_iff.mp (by simpa [finishing, hrs, hrn] using hfin)
          with ⟨h1, _⟩
        exact h1
      have hne : s.time_remaining ≠ 0 := by
        intro h0
        simp [timeoutSig, h0] at hts
      have htr2 : (msmStep s i).time_remaining = s.time_remaining - 1 := by
        simp [msmStep, hrs, hts, dec32, hne]
      have hdist : msmDist E (msmStep s i) ≤ mMod + 4 := msmDist_le E _
      have e2 : msmDist E s = 0 := by simp [msmDist, hf]
      have hM : mMod = 1024 := rfl
      unfold msmMeasure
      rw [htr2, e2, hB]
      omega
  | triggerSlave =>
      have e1 : msmDist E (msmStep s i) = distC E s.m + 1 := by
        have h1 : (msmStep s i).fsm = Fsm.triggerSlave2 := by simp [msmStep, hf]
        have h2 : (msmStep s i).m = s.m := by simp [msmStep, hf]
        simp [msmDist, h1, h2]
      have e2 : msmDist E s = distC E s.m + 2 := by simp [msmDist, hf]
      unfold msmMeasure
      rw [e1, e2, hB]
      omega
  | triggerSlave2 =>
      have e1 : msmDist E (msmStep s i) = distC E s.m := by
        have h1 : (msmStep s i).fsm = Fsm.counter := by simp [msmStep, hf]
        have h2 : (msmStep s i).m = s.m := by simp [msmStep, hf]
        simp [msmDist, h1, h2]
      have e2 : msmDist E s = distC E s.m + 1 := by simp [msmDist, hf]
      unfold msmMeasure
      rw [e1, e2, hB]
      omega
  | counter =>
      have e2 : msmDist E s = distC E s.m := by simp [msmDist, hf]
      by_cases hce : s.m = E
      · have hce2 : cycleEnding s i = true := by simp [cycleEnding, hE0, hce]
        have h3 : distC E s.m = 3 := by
          subst hce
          unfold distC mMod
          omega
        have e1 : msmDist E (msmStep s i) ≤ 2 := by
          have h1 : (msmStep s i).fsm =
              if actAsMaster i then Fsm.idle else Fsm.slaveSuccessWait := by
            simp [msmStep, hf, hce2]
          by_cases haam : actAsMaster i = true
          · simp [msmDist, h1, haam]
          · have haam2 : actAsMaster i = false := Bool.eq_false_iff.mpr haam
            simp [msmDist, h1, haam2]
        unfold msmMeasure
        rw [e2, h3, hB]
        omega
      · have hce2 : cycleEnding s i = false := by simp [cycleEnding, hE0, hce]
        have e1 : msmDist E (msmStep s i) = distC E ((s.m + 1) % mMod) := by
          have h1 : (msmStep s i).fsm = Fsm.counter := by simp [msmStep, hf, hce2]
          have h2 : (msmStep s i).m = (s.m + 1) % mMod := by simp [msmStep, hf]
          simp [msmDist, h1, h2]
        have hdc : distC E ((s.m + 1) % mMod) < distC E s.m :=
          distC_succ E s.m hE1 hmlt hce
        unfold msmMeasure
        rw [e1, e2, hB]
        omega
  | slaveSuccessWait =>
      have e1 : msmDist E (msmStep s i) = 1 := by
        have h1 : (msmStep s i).fsm = Fsm.slaveSuccessCheck := by
          simp [msmStep, hf]
        simp [msmDist, h1]
      have e2 : msmDist E s = 2 := by simp [msmDist, hf]
      unfold msmMeasure
      rw [e1, e2, hB]
      omega
  | slaveSuccessCheck =>
      have e1 : msmDist E (msmStep s i) = 0 := by
        have h1 : (msmStep s i).fsm = Fsm.idle := by simp [msmStep, hf]
        simp [msmDist, h1]
      have e2 : msmDist E s = 1 := by simp [msmDist, hf]
      unfold msmMeasure
      rw [e1, e2, hB]
      omega

/-- `running` holds at every clock after the run strobe as long as `done` has
not yet been asserted. -/
theorem c3_running_until (init : MSMState) (inp : Nat → MSMIn) (t0 : Nat)
    (hrun0 : (inp t0).run_stb = true) :
    ∀ t, t0 < t →
      (∀ u, t0 < u → u < t → doneSig (msmTrace init inp u) (inp u) = false) →
      (msmTrace init inp t).running = true := by
  intro t
  induction t with
  | zero => omega
  | succ n ih =>
      intro hn hprev
      rcases Nat.lt_or_ge t0 n with h | h
      · have hr : (msmTrace init inp n).running = true :=
          ih h (fun u h1 h2 => hprev u h1 (by omega))
        have hds : doneStb (msmTrace init inp n) (inp n) = false := by
          have := hprev n h (by omega)
          simp [doneStb, this]
        exact c3_running_step _ _ hr hds
      · have h0 : n = t0 := by omega
        subst h0
        have hds : doneStb (msmTrace init inp n) (inp n) = false := by
          simp [doneStb, doneSig, finishing, hrun0]
        simp [msmTrace, msmStep, hds, hrun0]

/-- Well-founded search: from any in-run clock with no `done` so far, some
later clock asserts `done`, and none in between. -/
theorem c3_find_done (init : MSMState) (inp : Nat → MSMIn) (t0 E : Nat)
    (hE1 : E < mMod) (hE : ∀ t, (inp t).m_end = E)
    (hrun0 : (inp t0).run_stb = true)
    (hrun : ∀ t, t0 < t → (inp t).run_stb = false)
    (hm : (msmTrace init inp t0).m < mMod) :
    ∀ k t, t0 < t →
      (∀ u, t0 < u → u < t → doneSig (msmTrace init inp u) (inp u) = false) →
      msmMeasure E (msmTrace init inp t) ≤ k →
      ∃ v, t ≤ v ∧ doneSig (msmTrace init inp v) (inp v) = true ∧
        ∀ u, t0 < u → u < v → doneSig (msmTrace init inp u) (inp u) = false := by
  intro k
  induction k using Nat.strong_induction_on with
  | _ k ih =>
    intro t ht hprev hk
    by_cases hd : doneSig (msmTrace init inp t) (inp t) = true
    · exact ⟨t, Nat.le_refl t, hd, hprev⟩
    · have hd2 : doneSig (msmTrace init inp t) (inp t) = false :=
        Bool.eq_false_iff.mpr hd
      have hrt : (msmTrace init inp t).running = true :=
        c3_running_until init inp t0 hrun0 t ht hprev
      have hmt : (msmTrace init inp t).m < mMod :=
        c3_m_lt init inp t0 hm t (Nat.le_of_lt ht)
      have hdesc : msmMeasure E (msmTrace init inp (t + 1))
          < msmMeasure E (msmTrace init inp t) :=
        c3_descent E _ _ (hE t) hE1 (hrun t ht) hmt hrt hd2
      have hk2 : msmMeasure E (msmTrace init inp (t + 1)) < k :=
        Nat.lt_of_lt_of_le hdesc hk
      obtain ⟨v, hv1, hv2, hv3⟩ := ih (msmMeasure E (msmTrace init inp (t + 1)))
        hk2 (t + 1) (by omega)
        (fun u h1 h2 => by
          rcases Nat.lt_or_ge u t with hu | hu
          · exact hprev u h1 hu
          · have h0 : u = t := by omega
            subst h0
            exact hd2)
        (Nat.le_refl _)
      exact ⟨v, by omega, hv2, hv3⟩

/-- Once the machine stops running, it stays stopped while `run_stb` is low. -/
theorem c3_running_stays_false (init : MSMState) (inp : Nat → MSMIn) (v : Nat)
    (hrv : (msmTrace init inp (v + 1)).running = false)
    (hrun : ∀ t, v < t → (inp t).run_stb = false) :
    ∀ u, v + 1 ≤ u → (msmTrace init inp u).running = false := by
  intro u
  induction u with
  | zero => omega
  | succ n ih =>
      intro h
      rcases Nat.lt_or_ge n (v + 1) with h1 | h1
      · have h0 : n + 1 = v + 1 := by omega
        rw [h0]
        exact hrv
      · exact c3_running_false_step _ _ (ih h1) (hrun n (by omega))

/-- C3: per run — a `run_stb` pulse with no further `run_stb` afterwards and a
constant `m_end` — the machine asserts `done_stb` on exactly one later clock;
on that clock `timeout` or `success` holds.  Existence follows from the
measure descent (the timer ticks on every non-finishing `IDLE` clock and the
FSM otherwise approaches `IDLE`); uniqueness because `done_stb` clears
`running` and a stopped machine cannot finish again. -/
theorem c3_done_stb_exactly_once (init : MSMState) (inp : Nat → MSMIn)
    (t0 E : Nat) (hE1 : E < mMod) (hE : ∀ t, (inp t).m_end = E)
    (hrun0 : (inp t0).run_stb = true)
    (hrun : ∀ t, t0 < t → (inp t).run_stb = false)
    (hm : (msmTrace init inp t0).m < mMod) :
    ∃ v, t0 < v ∧ doneStb (msmTrace init inp v) (inp v) = true ∧
      (timeoutSig (msmTrace init inp v) (inp v)
        || (msmTrace init inp v).success) = true ∧
      ∀ u, t0 < u → u ≠ v → doneStb (msmTrace init inp u) (inp u) = false := by
  obtain ⟨v, hv1, hv2, hv3⟩ := c3_find_done init inp t0 E hE1 hE hrun0 hrun hm
    (msmMeasure E (msmTrace init inp (t0 + 1))) (t0 + 1) (by omega)
    (fun u h1 h2 => absurd h1 (by omega)) (Nat.le_refl _)
  have hdd : (msmTrace init inp v).done_d = false := by
    obtain ⟨w, rfl⟩ : ∃ w, v = w + 1 := ⟨v - 1, by omega⟩
    have hsd : (msmTrace init inp (w + 1)).done_d
        = doneSig (msmTrace init inp w) (inp w) := by
      simp [msmTrace, msmStep]
    rw [hsd]
    rcases Nat.lt_or_ge t0 w with hw | hw
    · exact hv3 w hw (by omega)
    · have h0 : w = t0 := by omega
      subst h0
      simp [doneSig, finishing, hrun0]
  have hstb : doneStb (msmTrace init inp v) (inp v) = true := by
    simp [doneStb, hv2, hdd]
  have hfin : finishing (msmTrace init inp v) (inp v) = true := by
    have h2 := hv2
    simp only [doneSig, Bool.and_eq_true] at h2
    exact h2.1
  have hts : (timeoutSig (msmTrace init inp v) (inp v)
      || (msmTrace init inp v).success) = true := by
    have h3 := hfin
    simp only [finishing, Bool.and_eq_true] at h3
    exact h3.2
  have hrv : (msmTrace init inp (v + 1)).running = false := by
    have hsd : msmTrace init inp (v + 1)
        = msmStep (msmTrace init inp v) (inp v) := rfl
    rw [hsd]
    simp [msmStep, hstb]
  refine ⟨v, by omega, hstb, hts, ?_⟩
  intro u hu hne
  rcases Nat.lt_or_ge u v with h | h
  · have hds := hv3 u hu h
    simp [doneStb, hds]
  · have hge : v + 1 ≤ u := by omega
    have hrf : (msmTrace init inp u).running = false :=
      c3_running_stays_false init inp v hrv
        (fun t ht => hrun t (by omega)) u hge
    exact c3_doneStb_not_running _ _ hrf

/-- C3 witness: standalone master, `m_end = 0`, three clocks of budget. -/
theorem c3_done_stb_exactly_once_witness :
    (0 : Nat) < mMod ∧ (∀ t, (c3wIn t).m_end = 0) ∧
      (c3wIn 0).run_stb = true ∧ (∀ t, 0 < t → (c3wIn t).run_stb = false) ∧
      (msmTrace msmReset c3wIn 0).m < mMod ∧
      (∃ v, 0 < v ∧ doneStb (msmTrace msmReset c3wIn v) (c3wIn v) = true ∧
        (timeoutSig (msmTrace msmReset c3wIn v) (c3wIn v)
          || (msmTrace msmReset c3wIn v).success) = true ∧
        ∀ u, 0 < u → u ≠ v →
          doneStb (msmTrace msmReset c3wIn u) (c3wIn u) = false) :=
  ⟨by decide, fun _ => rfl, rfl,
    by
      intro t ht
      simp [c3wIn]
      omega,
    by decide,
    c3_done_stb_exactly_once msmReset c3wIn 0 0 (by decide) (fun _ => rfl) rfl
      (by
        intro t ht
        simp [c3wIn]
        omega)
      (by decide)⟩

end Entangler
